import Mathlib

/-!
Verification development for the UAP-51 flight-control and combat core.

The definitions below are a shallow embedding of the JavaScript sources:
`PIDController` (src/utils/PIDController.js), the game constants
(src/utils/constants.js) and the simulation methods of `GameEngine`
(src/engine/GameEngine.js).  Pure numeric code is embedded over `ℚ`;
the geometric code (vector lengths, trigonometric patrol pattern) is
embedded over `ℝ`.
-/

namespace UAP51

/-! ## Configuration constants (src/utils/constants.js) -/

def ALIEN_FIRE_RATE_MIN : ℚ := 2500

def ALIEN_FIRE_RATE_MAX : ℚ := 4500

def LASER_SPEED : ℚ := 60

def LASER_MAX_DISTANCE : ℚ := 120

def LASER_DAMAGE : ℚ := 18

def UAP_GRAVITY : ℚ := -15

def UAP_HOVER_FORCE : ℚ := 14

def UAP_DAMPING : ℚ := 94/100

def SHIELD_MAX : ℚ := 100

def BOUNDS_X : ℚ := 60

def BOUNDS_Y_MIN : ℚ := 1

def BOUNDS_Y_MAX : ℚ := 50

def BOUNDS_Z : ℚ := 60

/-! ## PIDController (src/utils/PIDController.js) -/

/-- State of one `PIDController` instance: the three gains, the output cap,
the integral accumulator, the previous error, and the cached last terms. -/
structure PIDState where
  kp : ℚ
  ki : ℚ
  kd : ℚ
  maxOutput : ℚ
  integral : ℚ
  prevError : ℚ
  lastP : ℚ
  lastI : ℚ
  lastD : ℚ
  deriving DecidableEq

/-- `PIDController.calculate(error, dt)`: returns the updated controller state
together with the clamped control output. -/
def PIDState.calculate (s : PIDState) (error dt : ℚ) : PIDState × ℚ :=
  let lastP := s.kp * error
  let integral := max (-15) (min 15 (s.integral + error * dt))
  let lastI := s.ki * integral
  let derivative := (error - s.prevError) / dt
  let lastD := s.kd * derivative
  let output := lastP + lastI + lastD
  ({ s with integral := integral, prevError := error,
            lastP := lastP, lastI := lastI, lastD := lastD },
   max (-s.maxOutput) (min s.maxOutput output))

/-- `PIDController.reset()`. -/
def PIDState.reset (s : PIDState) : PIDState :=
  { s with integral := 0, prevError := 0, lastP := 0, lastI := 0, lastD := 0 }

/-- The PID controller used for the X axis (gains from `GAME_CONFIG.PID.X`,
default output cap 80), in its freshly constructed state. -/
def pid0 : PIDState := ⟨10, 1/2, 5, 80, 0, 0, 0, 0, 0⟩

/-- A controller with unit derivative gain and dirty accumulated state,
used as a concrete test subject. -/
def pidKd : PIDState := ⟨0, 0, 1, 80, 7, 3, 2, 2, 2⟩

/-- C1: for every error `e` and every `dt > 0`, the output of
`PIDController.calculate` lies within `[-maxOutput, maxOutput]`, for any
gains and any accumulated controller state (whenever the cap is
nonnegative, so that the interval is well formed). -/
theorem calculate_output_bounded (s : PIDState) (e dt : ℚ)
    (hdt : 0 < dt) (hM : 0 ≤ s.maxOutput) :
    -s.maxOutput ≤ (s.calculate e dt).2 ∧ (s.calculate e dt).2 ≤ s.maxOutput := by
  unfold PIDState.calculate
  refine ⟨le_max_left _ _, max_le (by linarith) (min_le_left _ _)⟩

/-- Witness for C1 at a concrete input: huge error, small step, X-axis gains. -/
theorem calculate_output_bounded_w :
    (0:ℚ) < 1/100 ∧ (0:ℚ) ≤ pid0.maxOutput ∧
      (-pid0.maxOutput ≤ (pid0.calculate 1000 (1/100)).2 ∧
        (pid0.calculate 1000 (1/100)).2 ≤ pid0.maxOutput) :=
  ⟨by norm_num, by norm_num [pid0],
    calculate_output_bounded pid0 1000 (1/100) (by norm_num) (by norm_num [pid0])⟩

/-- C2 counterexample: after `reset()`, `calculate(1, 1)` on a controller with
`kd = 1` produces derivative term `1`, not `0`: `prevError` is reset to `0`,
not treated as equal to the incoming error. -/
theorem reset_calculate_derivative_nonzero :
    ((pidKd.reset).calculate 1 1).1.lastD ≠ 0 := by
  norm_num [PIDState.reset, PIDState.calculate, pidKd]

/-- C2 amended: `reset()` followed by `calculate(e, dt)` produces a derivative
term of exactly `kd * e / dt` (the reset sets `previousError` to `0`, so the
first derivative is measured against `0`, not against `e`), and an integral
term of exactly `ki * e * dt` whenever `e * dt` lies within the anti-windup
clamp `[-15, 15]`. -/
theorem reset_calculate_first_terms (s : PIDState) (e dt : ℚ) (hdt : 0 < dt)
    (hlo : -15 ≤ e * dt) (hhi : e * dt ≤ 15) :
    ((s.reset).calculate e dt).1.lastD = s.kd * (e / dt) ∧
      ((s.reset).calculate e dt).1.lastI = s.ki * (e * dt) := by
  unfold PIDState.reset PIDState.calculate
  constructor
  · simp
  · simp only
    rw [zero_add, min_eq_right hhi, max_eq_right hlo]

/-- Witness for C2 amended at `e = 1`, `dt = 1` on the test controller. -/
theorem reset_calculate_first_terms_w :
    (0:ℚ) < 1 ∧ (-15:ℚ) ≤ 1 * 1 ∧ (1:ℚ) * 1 ≤ 15 ∧
      (((pidKd.reset).calculate 1 1).1.lastD = pidKd.kd * (1 / 1) ∧
        ((pidKd.reset).calculate 1 1).1.lastI = pidKd.ki * (1 * 1)) :=
  ⟨by norm_num, by norm_num, by norm_num,
    reset_calculate_first_terms pidKd 1 1 (by norm_num) (by norm_num) (by norm_num)⟩

/-! ## Frame delta-time (GameEngine.animate, line 741) -/

/-- The frame loop computes `dt = Math.min(clock.getDelta(), 0.1)`. -/
def clampFrameDt (raw : ℚ) : ℚ := min raw (1/10)

/-- C6: the frame delta-time clamp is an upper clamp only.  A raw delta of
`0` or a negative delta passes through unchanged to `calculate`, whose
derivative divides by it; there is no lower clamp to a positive epsilon. -/
theorem frame_dt_not_lower_clamped :
    clampFrameDt 0 = 0 ∧ clampFrameDt (-(1/100)) = -(1/100) ∧ clampFrameDt 1 = 1/10 := by
  refine ⟨?_, ?_, ?_⟩ <;> norm_num [clampFrameDt]

/-! ## Manual-mode force composition (GameEngine.update, lines 605-614) -/

/-- Snapshot of the logical control keys read in manual mode. -/
structure Keys where
  w : Bool
  s : Bool
  a : Bool
  d : Bool
  space : Bool
  shiftL : Bool
  shiftR : Bool
  deriving DecidableEq

/-- A rational 3-vector (used for the purely arithmetic parts of the core). -/
structure V3 where
  x : ℚ
  y : ℚ
  z : ℚ
  deriving DecidableEq

def V3.add (u v : V3) : V3 := ⟨u.x + v.x, u.y + v.y, u.z + v.z⟩

def V3.smul (c : ℚ) (v : V3) : V3 := ⟨c * v.x, c * v.y, c * v.z⟩

/-- Manual-control force: fixed thrust per held key, plus the constant
gravity and hover biases on the vertical axis. -/
def manualForce (k : Keys) (thrust : ℚ) : V3 :=
  let z0 := (if k.w then -thrust else 0) + (if k.s then thrust else 0)
  let x0 := (if k.a then -thrust else 0) + (if k.d then thrust else 0)
  let y0 := (if k.space then thrust else 0)
      + (if k.shiftL || k.shiftR then -(thrust * (1/2)) else 0)
  ⟨x0, y0 + (UAP_GRAVITY + UAP_HOVER_FORCE), z0⟩

/-- No control key held. -/
def noKeys : Keys := ⟨false, false, false, false, false, false, false⟩

/-- C5 counterexample: with no vertical key held the net vertical force is
`UAP_GRAVITY + UAP_HOVER_FORCE = -1`, which is not an upward (positive)
bias. -/
theorem manual_idle_force_not_upward :
    (manualForce noKeys 40).y = UAP_GRAVITY + UAP_HOVER_FORCE ∧
      ¬ 0 < (manualForce noKeys 40).y := by
  constructor
  · norm_num [manualForce, noKeys]
  · norm_num [manualForce, noKeys, UAP_GRAVITY, UAP_HOVER_FORCE]

/-- C5 amended: in manual mode with no vertical-input key held, the net
vertical force equals `UAP_GRAVITY + UAP_HOVER_FORCE`; by configuration this
sum is `-1`, a small downward bias. -/
theorem manual_idle_vertical_force (k : Keys) (thrust : ℚ)
    (hsp : k.space = false) (hsl : k.shiftL = false) (hsr : k.shiftR = false) :
    (manualForce k thrust).y = UAP_GRAVITY + UAP_HOVER_FORCE ∧
      UAP_GRAVITY + UAP_HOVER_FORCE = -1 := by
  constructor
  · simp [manualForce, hsp, hsl, hsr]
  · norm_num [UAP_GRAVITY, UAP_HOVER_FORCE]

/-- Witness for C5 amended with no key held and default thrust. -/
theorem manual_idle_vertical_force_w :
    noKeys.space = false ∧ noKeys.shiftL = false ∧ noKeys.shiftR = false ∧
      ((manualForce noKeys 40).y = UAP_GRAVITY + UAP_HOVER_FORCE ∧
        UAP_GRAVITY + UAP_HOVER_FORCE = -1) :=
  ⟨rfl, rfl, rfl, manual_idle_vertical_force noKeys 40 rfl rfl rfl⟩

/-! ## Craft physics integration and bounds (GameEngine.update, lines 616-629) -/

/-- Craft kinematic state. -/
structure Motion where
  pos : V3
  vel : V3
  deriving DecidableEq

/-- One physics step of `GameEngine.update`: `velocity += force * dt`,
`velocity *= UAP_DAMPING`, `position += velocity * dt`, then the arena
boundary handling (inelastic floor, soft ceiling, hard X/Z walls). -/
def integrate (m : Motion) (force : V3) (dt : ℚ) : Motion :=
  let v1 := m.vel.add (V3.smul dt force)
  let v2 := V3.smul UAP_DAMPING v1
  let p1 := m.pos.add (V3.smul dt v2)
  let py := if p1.y < BOUNDS_Y_MIN then BOUNDS_Y_MIN else p1.y
  let vy := if p1.y < BOUNDS_Y_MIN then max 0 v2.y else v2.y
  let py2 := if py > BOUNDS_Y_MAX then BOUNDS_Y_MAX else py
  let px := max (-BOUNDS_X) (min BOUNDS_X p1.x)
  let pz := max (-BOUNDS_Z) (min BOUNDS_Z p1.z)
  ⟨⟨px, py2, pz⟩, ⟨v2.x, vy, v2.z⟩⟩

/-- C7: after any single integration step, for arbitrary prior state, force
and delta-time, the craft position satisfies the arena bounds: altitude in
`[BOUNDS_Y_MIN, BOUNDS_Y_MAX]` and X/Z within `±BOUNDS_X`, `±BOUNDS_Z`. -/
theorem integrate_position_in_bounds (m : Motion) (f : V3) (dt : ℚ) :
    BOUNDS_Y_MIN ≤ (integrate m f dt).pos.y ∧
      (integrate m f dt).pos.y ≤ BOUNDS_Y_MAX ∧
      |(integrate m f dt).pos.x| ≤ BOUNDS_X ∧
      |(integrate m f dt).pos.z| ≤ BOUNDS_Z := by
  unfold integrate
  simp only [BOUNDS_Y_MIN, BOUNDS_Y_MAX, BOUNDS_X, BOUNDS_Z] at *
  refine ⟨?_, ?_, ?_, ?_⟩
  · split_ifs with h1 h2 h3 <;> norm_num <;> linarith
  · split_ifs with h1 h2 h3 <;> norm_num <;> linarith
  · rw [abs_le]
    constructor
    · exact le_max_left _ _
    · exact max_le (by norm_num) (min_le_left _ _)
  · rw [abs_le]
    constructor
    · exact le_max_left _ _
    · exact max_le (by norm_num) (min_le_left _ _)

/-! ## Threat model (GameEngine.calculateEvadeTarget, lines 440-482) -/

noncomputable section

/-- A real 3-vector, for the geometric parts of the core. -/
structure Rv3 where
  x : ℝ
  y : ℝ
  z : ℝ

def Rv3.add (u v : Rv3) : Rv3 := ⟨u.x + v.x, u.y + v.y, u.z + v.z⟩

def Rv3.sub (u v : Rv3) : Rv3 := ⟨u.x - v.x, u.y - v.y, u.z - v.z⟩

def Rv3.smul (c : ℝ) (v : Rv3) : Rv3 := ⟨c * v.x, c * v.y, c * v.z⟩

/-- `THREE.Vector3.length()`. -/
def Rv3.len (v : Rv3) : ℝ := Real.sqrt (v.x ^ 2 + v.y ^ 2 + v.z ^ 2)

/-- `THREE.Vector3.normalize()`: divide by the length, or by 1 for the zero
vector (`divideScalar(this.length() || 1)`). -/
def Rv3.normalize (v : Rv3) : Rv3 :=
  Rv3.smul (1 / (if v.len = 0 then 1 else v.len)) v

/-- `THREE.Vector3.distanceTo`. -/
def dist3 (u v : Rv3) : ℝ := (u.sub v).len

/-- One step of the laser loop of `calculateEvadeTarget`: add the avoidance
contribution of one laser (pointing from the laser toward the craft, scaled
by `20 / (distance + 1)`) when it is within 20 units. -/
def addLaserThreat (uapPos acc lp : Rv3) : Rv3 :=
  let toUAP := uapPos.sub lp
  let d := toUAP.len
  if d < 20 then acc.add (Rv3.smul (20 / (d + 1)) toUAP.normalize) else acc

/-- One step of the alien loop of `calculateEvadeTarget`: skip dead aliens,
otherwise add the contribution scaled by `10 / (distance + 1)` when the alien
is within 15 units. -/
def addAlienThreat (uapPos acc : Rv3) (a : Rv3 × Bool) : Rv3 :=
  if a.2 = false then acc
  else
    let toUAP := uapPos.sub a.1
    let d := toUAP.len
    if d < 15 then acc.add (Rv3.smul (10 / (d + 1)) toUAP.normalize) else acc

/-- The inputs read by `calculateEvadeTarget`: the craft position, the laser
positions, the alien positions with their `alive` flags, and the elapsed
survival time. -/
structure EvadeInput where
  uapPos : Rv3
  lasers : List Rv3
  aliens : List (Rv3 × Bool)
  survivalTime : ℝ

/-- The accumulated `dangerDirection` vector before the `multiplyScalar(2)`. -/
def dangerDirection (i : EvadeInput) : Rv3 :=
  i.aliens.foldl (addAlienThreat i.uapPos)
    (i.lasers.foldl (addLaserThreat i.uapPos) ⟨0, 0, 0⟩)

/-- The target of `calculateEvadeTarget` after the bound and altitude clamps
(lines 466-472), before the patrol-pattern branch. -/
def prePatrolTarget (i : EvadeInput) : Rv3 :=
  let dd := Rv3.smul 2 (dangerDirection i)
  let t0 := i.uapPos.add dd
  ⟨max (-(60 * 0.7)) (min (60 * 0.7) t0.x),
   max 5 (min 25 (t0.y + (15 - i.uapPos.y) * 0.1)),
   max (-(60 * 0.7)) (min (60 * 0.7) t0.z)⟩

/-- `GameEngine.calculateEvadeTarget`: the clamped avoidance target, with the
patrol pattern applied when the (doubled) danger vector has length below 1. -/
def calculateEvadeTarget (i : EvadeInput) : Rv3 :=
  if (Rv3.smul 2 (dangerDirection i)).len < 1 then
    ⟨(prePatrolTarget i).x + Real.sin (i.survivalTime * 0.5) * 10,
     10 + Real.sin (i.survivalTime * 0.3) * 5,
     (prePatrolTarget i).z + Real.cos (i.survivalTime * 0.7) * 10⟩
  else prePatrolTarget i

/-- The craft parked at the east wall with no threats, at elapsed time `π`. -/
def cexInput : EvadeInput := ⟨⟨60, 10, 0⟩, [], [], Real.pi⟩

/-- Craft at the origin / at `x = 10`, no threats, elapsed time 0. -/
def inpA : EvadeInput := ⟨⟨0, 10, 0⟩, [], [], 0⟩

def inpB : EvadeInput := ⟨⟨10, 10, 0⟩, [], [], 0⟩

lemma dangerDirection_nil (p : Rv3) (t : ℝ) :
    dangerDirection ⟨p, [], [], t⟩ = ⟨0, 0, 0⟩ := rfl

lemma len_zero : Rv3.len ⟨0, 0, 0⟩ = 0 := by
  simp [Rv3.len]

lemma smul_zero_vec (c : ℝ) : Rv3.smul c ⟨0, 0, 0⟩ = ⟨0, 0, 0⟩ := by
  simp [Rv3.smul]

/-- C3 counterexample: with the craft at `(60, 10, 0)`, no threats and elapsed
time `π`, the returned target has `x = 42 + 10 = 52`, outside the 70% soft
bound of `±42` (and hence the claimed bound conjunction fails). -/
theorem evade_target_exceeds_soft_bound :
    ¬ (|(calculateEvadeTarget cexInput).x| ≤ 60 * 0.7 ∧
       |(calculateEvadeTarget cexInput).z| ≤ 60 * 0.7 ∧
       5 ≤ (calculateEvadeTarget cexInput).y ∧
       (calculateEvadeTarget cexInput).y ≤ 25) := by
  have hdd : Rv3.smul 2 (dangerDirection cexInput) = ⟨0, 0, 0⟩ := by
    rw [show dangerDirection cexInput = ⟨0, 0, 0⟩ from rfl, smul_zero_vec]
  have hx : (calculateEvadeTarget cexInput).x = 52 := by
    unfold calculateEvadeTarget
    rw [hdd, len_zero, if_pos (by norm_num)]
    have hsin : Real.sin (cexInput.survivalTime * 0.5) = 1 := by
      rw [show cexInput.survivalTime * (0.5:ℝ) = Real.pi / 2 by
            rw [show (0.5:ℝ) = 1/2 by norm_num]; unfold cexInput; ring]
      exact Real.sin_pi_div_two
    rw [hsin]
    unfold prePatrolTarget
    rw [hdd]
    unfold cexInput Rv3.add
    norm_num
  intro h
  rw [hx] at h
  have := h.1
  rw [abs_le] at this
  norm_num at this

/-- C3 amended: for every input configuration, the target returned by
`calculateEvadeTarget` has its X and Z coordinates within the 70% soft bound
widened by the 10-unit patrol amplitude (`±52` for hard bounds of `±60`,
since the patrol offsets are added after the clamp), and its Y coordinate
within the altitude band `[5, 25]`. -/
theorem evade_target_in_widened_bounds (i : EvadeInput) :
    |(calculateEvadeTarget i).x| ≤ 60 * 0.7 + 10 ∧
      |(calculateEvadeTarget i).z| ≤ 60 * 0.7 + 10 ∧
      5 ≤ (calculateEvadeTarget i).y ∧ (calculateEvadeTarget i).y ≤ 25 := by
  have hx : |(prePatrolTarget i).x| ≤ 60 * 0.7 := by
    rw [abs_le]
    exact ⟨le_max_left _ _, max_le (by norm_num) (min_le_left _ _)⟩
  have hz : |(prePatrolTarget i).z| ≤ 60 * 0.7 := by
    rw [abs_le]
    exact ⟨le_max_left _ _, max_le (by norm_num) (min_le_left _ _)⟩
  have hy1 : 5 ≤ (prePatrolTarget i).y := le_max_left _ _
  have hy2 : (prePatrolTarget i).y ≤ 25 :=
    max_le (by norm_num) (min_le_left _ _)
  unfold calculateEvadeTarget
  split_ifs with h
  · have hs1 := Real.neg_one_le_sin (i.survivalTime * 0.5)
    have hs2 := Real.sin_le_one (i.survivalTime * 0.5)
    have hs3 := Real.neg_one_le_sin (i.survivalTime * 0.3)
    have hs4 := Real.sin_le_one (i.survivalTime * 0.3)
    have hc1 := Real.neg_one_le_cos (i.survivalTime * 0.7)
    have hc2 := Real.cos_le_one (i.survivalTime * 0.7)
    rw [abs_le] at hx hz
    refine ⟨abs_le.mpr ⟨by nlinarith, by nlinarith⟩,
      abs_le.mpr ⟨by nlinarith, by nlinarith⟩, by nlinarith, by nlinarith⟩
  · rw [abs_le] at hx hz ⊢
    refine ⟨⟨by linarith [hx.1], by linarith [hx.2]⟩, ?_, hy1, hy2⟩
    rw [abs_le]
    exact ⟨by linarith [hz.1], by linarith [hz.2]⟩

/-- C4 counterexample: with no threats (danger magnitude 0 in both cases) and
the same elapsed time, two different craft positions produce different patrol
targets: the X coordinate is not overridden by a pure function of time but
keeps its dependence on the craft position. -/
theorem patrol_target_depends_on_position :
    (Rv3.smul 2 (dangerDirection inpA)).len < 1 ∧
      (Rv3.smul 2 (dangerDirection inpB)).len < 1 ∧
      inpA.survivalTime = inpB.survivalTime ∧
      (calculateEvadeTarget inpA).x ≠ (calculateEvadeTarget inpB).x := by
  have hdA : Rv3.smul 2 (dangerDirection inpA) = ⟨0, 0, 0⟩ := by
    rw [show dangerDirection inpA = ⟨0, 0, 0⟩ from rfl, smul_zero_vec]
  have hdB : Rv3.smul 2 (dangerDirection inpB) = ⟨0, 0, 0⟩ := by
    rw [show dangerDirection inpB = ⟨0, 0, 0⟩ from rfl, smul_zero_vec]
  have hlA : (Rv3.smul 2 (dangerDirection inpA)).len < 1 := by
    rw [hdA, len_zero]; norm_num
  have hlB : (Rv3.smul 2 (dangerDirection inpB)).len < 1 := by
    rw [hdB, len_zero]; norm_num
  have hxA : (calculateEvadeTarget inpA).x = 0 := by
    unfold calculateEvadeTarget
    rw [hdA, len_zero, if_pos (by norm_num)]
    unfold prePatrolTarget
    rw [hdA]
    unfold inpA Rv3.add
    norm_num
  have hxB : (calculateEvadeTarget inpB).x = 10 := by
    unfold calculateEvadeTarget
    rw [hdB, len_zero, if_pos (by norm_num)]
    unfold prePatrolTarget
    rw [hdB]
    unfold inpB Rv3.add
    norm_num
  exact ⟨hlA, hlB, rfl, by rw [hxA, hxB]; norm_num⟩

/-- C4 amended: whenever the doubled danger vector has magnitude below 1
(the code applies `multiplyScalar(2)` before the check, so this is the
accumulated threat vector having magnitude below 0.5), the Y coordinate of
the target is overridden by the patrol sinusoid `10 + 5·sin(0.3·t)` — a pure
function of elapsed time — while the X and Z coordinates receive the patrol
sinusoids `10·sin(0.5·t)` and `10·cos(0.7·t)` as additive offsets on top of
the clamped position-derived target, so they remain position-dependent. -/
theorem patrol_mode_target_formula (i : EvadeInput)
    (h : (Rv3.smul 2 (dangerDirection i)).len < 1) :
    calculateEvadeTarget i =
      ⟨(prePatrolTarget i).x + Real.sin (i.survivalTime * 0.5) * 10,
       10 + Real.sin (i.survivalTime * 0.3) * 5,
       (prePatrolTarget i).z + Real.cos (i.survivalTime * 0.7) * 10⟩ := by
  unfold calculateEvadeTarget
  rw [if_pos h]

/-- Witness for C4 amended at the concrete threat-free input `inpA`. -/
theorem patrol_mode_target_formula_w :
    (Rv3.smul 2 (dangerDirection inpA)).len < 1 ∧
      calculateEvadeTarget inpA =
        ⟨(prePatrolTarget inpA).x + Real.sin (inpA.survivalTime * 0.5) * 10,
         10 + Real.sin (inpA.survivalTime * 0.3) * 5,
         (prePatrolTarget inpA).z + Real.cos (inpA.survivalTime * 0.7) * 10⟩ := by
  have hdA : Rv3.smul 2 (dangerDirection inpA) = ⟨0, 0, 0⟩ := by
    rw [show dangerDirection inpA = ⟨0, 0, 0⟩ from rfl, smul_zero_vec]
  have hl : (Rv3.smul 2 (dangerDirection inpA)).len < 1 := by
    rw [hdA, len_zero]; norm_num
  exact ⟨hl, patrol_mode_target_formula inpA hl⟩

/-! ## Projectile simulation (GameEngine.update, lines 661-687) -/

/-- A live laser projectile: position, unit direction, speed, travelled
distance, and the `counted` near-miss flag. -/
structure Laser where
  pos : Rv3
  dir : Rv3
  speed : ℝ
  distance : ℝ
  counted : Bool

/-- Per-frame advancement of one laser (lines 663-664):
`distance += speed * dt`, `position += direction * (speed * dt)`. -/
def moveLaser (l : Laser) (dt : ℝ) : Laser :=
  { l with distance := l.distance + l.speed * dt,
           pos := l.pos.add (Rv3.smul (l.speed * dt) l.dir) }

/-- Result of processing one laser for one frame: the surviving laser (if
any), whether it collided with the craft, and whether it was credited as a
near miss this frame. -/
structure StepOut where
  laser : Option Laser
  collided : Bool
  evadeInc : Bool

/-- One iteration of the laser loop (lines 661-687): move, then collision
check against radius 1.8 (removal and damage), then the near-miss band check
`d < 4 ∧ 1.8 < d ∧ ¬counted`, then expiry on range or ground contact. -/
def laserStep (uap : Rv3) (dt : ℝ) (l : Laser) : StepOut :=
  if dist3 (moveLaser l dt).pos uap < 1.8 then ⟨none, true, false⟩
  else
    if dist3 (moveLaser l dt).pos uap < 4 ∧ 1.8 < dist3 (moveLaser l dt).pos uap ∧
        (moveLaser l dt).counted = false then
      if (LASER_MAX_DISTANCE : ℝ) < (moveLaser l dt).distance ∨ (moveLaser l dt).pos.y < 0 then
        ⟨none, false, true⟩
      else ⟨some { moveLaser l dt with counted := true }, false, true⟩
    else
      if (LASER_MAX_DISTANCE : ℝ) < (moveLaser l dt).distance ∨ (moveLaser l dt).pos.y < 0 then
        ⟨none, false, false⟩
      else ⟨some (moveLaser l dt), false, false⟩

/-- Accumulated outcome of running one laser over a sequence of frames. -/
structure RunOut where
  shields : ℝ
  evade : ℕ

/-- Run one laser over a list of frames, each frame giving the craft position
and the delta-time.  Shields lose `LASER_DAMAGE` (floored at 0) on collision;
the evade counter increments on a credited near miss; the run stops when the
laser is removed. -/
def runLaser (l : Laser) (sh : ℝ) (ev : ℕ) : List (Rv3 × ℝ) → RunOut
  | [] => ⟨sh, ev⟩
  | f :: fs =>
    match laserStep f.1 f.2 l with
    | ⟨none, collided, evInc⟩ =>
        ⟨if collided then max 0 (sh - (LASER_DAMAGE : ℝ)) else sh,
         ev + (if evInc then 1 else 0)⟩
    | ⟨some l2, _, evInc⟩ => runLaser l2 sh (ev + (if evInc then 1 else 0)) fs

/-- The laser-to-craft distances observed after movement on each frame the
laser actually lives through. -/
def runDists (l : Laser) : List (Rv3 × ℝ) → List ℝ
  | [] => []
  | f :: fs =>
    dist3 (moveLaser l f.2).pos f.1 ::
      (match laserStep f.1 f.2 l with
       | ⟨none, _, _⟩ => []
       | ⟨some l2, _, _⟩ => runDists l2 fs)

lemma moveLaser_counted (l : Laser) (dt : ℝ) : (moveLaser l dt).counted = l.counted := rfl

/-- Once the `counted` flag is set, frames that never bring the laser inside
the hit radius add nothing further to the evade counter. -/
lemma runLaser_counted_no_more_evade (tr : List (Rv3 × ℝ)) :
    ∀ (l : Laser) (sh : ℝ) (ev : ℕ), l.counted = true →
      (∀ d ∈ runDists l tr, ¬ d < 1.8) →
      (runLaser l sh ev tr).evade = ev := by
  induction tr with
  | nil => intro l sh ev _ _; rfl
  | cons f fs ih =>
    intro l sh ev hc hno
    have hnohead : ¬ dist3 (moveLaser l f.2).pos f.1 < 1.8 := by
      apply hno
      simp [runDists]
    have hcm : (moveLaser l f.2).counted = true := by
      rw [moveLaser_counted]; exact hc
    have hband : ¬ (dist3 (moveLaser l f.2).pos f.1 < 4 ∧
        1.8 < dist3 (moveLaser l f.2).pos f.1 ∧ (moveLaser l f.2).counted = false) := by
      intro hcon
      rw [hcm] at hcon
      simp at hcon
    by_cases hexp : (LASER_MAX_DISTANCE : ℝ) < (moveLaser l f.2).distance ∨
        (moveLaser l f.2).pos.y < 0
    · have hstep : laserStep f.1 f.2 l = ⟨none, false, false⟩ := by
        unfold laserStep
        rw [if_neg hnohead, if_neg hband, if_pos hexp]
      simp [runLaser, hstep]
    · have hstep : laserStep f.1 f.2 l = ⟨some (moveLaser l f.2), false, false⟩ := by
        unfold laserStep
        rw [if_neg hnohead, if_neg hband, if_neg hexp]
      have htail : ∀ d ∈ runDists (moveLaser l f.2) fs, ¬ d < 1.8 := by
        intro d hd
        apply hno
        simp only [runDists, hstep]
        exact List.mem_cons_of_mem _ hd
      simp only [runLaser, hstep]
      rw [if_neg (by simp), Nat.add_zero]
      exact ih (moveLaser l f.2) sh ev hcm htail

/-- C9: a projectile that never comes inside the hit radius (1.8) over the
frames it lives through, and is at least once strictly inside the near-miss
band `(1.8, 4)`, increments the evade counter by exactly 1 over its lifetime,
however many frames it spends inside the band. -/
theorem evade_counted_exactly_once (tr : List (Rv3 × ℝ)) :
    ∀ (l : Laser) (sh : ℝ) (ev : ℕ), l.counted = false →
      (∀ d ∈ runDists l tr, ¬ d < 1.8) →
      (∃ d ∈ runDists l tr, 1.8 < d ∧ d < 4) →
      (runLaser l sh ev tr).evade = ev + 1 := by
  induction tr with
  | nil =>
    intro l sh ev _ _ hband
    simp [runDists] at hband
  | cons f fs ih =>
    intro l sh ev hc hno hband
    have hnohead : ¬ dist3 (moveLaser l f.2).pos f.1 < 1.8 := by
      apply hno
      simp [runDists]
    have hcm : (moveLaser l f.2).counted = false := by
      rw [moveLaser_counted]; exact hc
    by_cases hb : dist3 (moveLaser l f.2).pos f.1 < 4 ∧ 1.8 < dist3 (moveLaser l f.2).pos f.1
    · -- the head frame is a credited near miss
      have hcond : dist3 (moveLaser l f.2).pos f.1 < 4 ∧
          1.8 < dist3 (moveLaser l f.2).pos f.1 ∧ (moveLaser l f.2).counted = false :=
        ⟨hb.1, hb.2, hcm⟩
      by_cases hexp : (LASER_MAX_DISTANCE : ℝ) < (moveLaser l f.2).distance ∨
          (moveLaser l f.2).pos.y < 0
      · have hstep : laserStep f.1 f.2 l = ⟨none, false, true⟩ := by
          unfold laserStep
          rw [if_neg hnohead, if_pos hcond, if_pos hexp]
        simp [runLaser, hstep]
      · have hstep : laserStep f.1 f.2 l =
            ⟨some { moveLaser l f.2 with counted := true }, false, true⟩ := by
          unfold laserStep
          rw [if_neg hnohead, if_pos hcond, if_neg hexp]
        have htail : ∀ d ∈ runDists { moveLaser l f.2 with counted := true } fs, ¬ d < 1.8 := by
          intro d hd
          apply hno
          simp only [runDists, hstep]
          exact List.mem_cons_of_mem _ hd
        simp only [runLaser, hstep, if_true]
        exact runLaser_counted_no_more_evade fs _ sh (ev + 1) rfl htail
    · -- the head frame is neither a hit nor a near miss
      have hcond : ¬ (dist3 (moveLaser l f.2).pos f.1 < 4 ∧
          1.8 < dist3 (moveLaser l f.2).pos f.1 ∧ (moveLaser l f.2).counted = false) := by
        intro hcon
        exact hb ⟨hcon.1, hcon.2.1⟩
      by_cases hexp : (LASER_MAX_DISTANCE : ℝ) < (moveLaser l f.2).distance ∨
          (moveLaser l f.2).pos.y < 0
      · have hstep : laserStep f.1 f.2 l = ⟨none, false, false⟩ := by
          unfold laserStep
          rw [if_neg hnohead, if_neg hcond, if_pos hexp]
        -- the laser is removed on the head frame, so the band was never entered
        obtain ⟨d, hd, hdb⟩ := hband
        simp only [runDists, hstep] at hd
        rcases List.mem_cons.mp hd with heq | hnil
        · rw [heq] at hdb
          exact absurd ⟨hdb.2, hdb.1⟩ hb
        · simp at hnil
      · have hstep : laserStep f.1 f.2 l = ⟨some (moveLaser l f.2), false, false⟩ := by
          unfold laserStep
          rw [if_neg hnohead, if_neg hcond, if_neg hexp]
        have htail : ∀ d ∈ runDists (moveLaser l f.2) fs, ¬ d < 1.8 := by
          intro d hd
          apply hno
          simp only [runDists, hstep]
          exact List.mem_cons_of_mem _ hd
        have hbtail : ∃ d ∈ runDists (moveLaser l f.2) fs, 1.8 < d ∧ d < 4 := by
          obtain ⟨d, hd, hdb⟩ := hband
          simp only [runDists, hstep] at hd
          rcases List.mem_cons.mp hd with heq | htl
          · rw [heq] at hdb
            exact absurd ⟨hdb.2, hdb.1⟩ hb
          · exact ⟨d, htl, hdb⟩
        simp only [runLaser, hstep]
        rw [if_neg (by simp), Nat.add_zero]
        exact ih (moveLaser l f.2) sh ev hcm htail hbtail

/-- The concrete laser used in the witnesses: 3 units in front of the craft,
flying parallel to the X axis at configuration speed, nothing travelled yet,
not yet credited. -/
def laserW : Laser := ⟨⟨0, 10, 3⟩, ⟨1, 0, 0⟩, (LASER_SPEED : ℝ), 0, false⟩

lemma moveLaser_laserW_zero : moveLaser laserW 0 = laserW := by
  simp [moveLaser, laserW, Rv3.add, Rv3.smul]

lemma dist_laserW_band : dist3 laserW.pos ⟨0, 10, 0⟩ = 3 := by
  unfold dist3 laserW Rv3.sub Rv3.len
  norm_num
  rw [show ((9:ℝ)) = 3 ^ 2 by norm_num]
  exact Real.sqrt_sq (by norm_num)

lemma dist_laserW_hit : dist3 laserW.pos ⟨0, 10, 2⟩ = 1 := by
  unfold dist3 laserW Rv3.sub Rv3.len
  norm_num

/-- Witness for C9: the band laser observed for one frame with the craft at
distance 3 is credited exactly once. -/
theorem evade_counted_exactly_once_w :
    laserW.counted = false ∧
      (∀ d ∈ runDists laserW [(⟨0, 10, 0⟩, 0)], ¬ d < 1.8) ∧
      (∃ d ∈ runDists laserW [(⟨0, 10, 0⟩, 0)], 1.8 < d ∧ d < 4) ∧
      (runLaser laserW 100 0 [(⟨0, 10, 0⟩, 0)]).evade = 0 + 1 := by
  have hd : runDists laserW [(⟨0, 10, 0⟩, 0)] =
      3 :: (match laserStep ⟨0, 10, 0⟩ 0 laserW with
            | ⟨none, _, _⟩ => []
            | ⟨some l2, _, _⟩ => runDists l2 []) := by
    simp only [runDists, moveLaser_laserW_zero, dist_laserW_band]
  have hno : ∀ d ∈ runDists laserW [(⟨0, 10, 0⟩, 0)], ¬ d < 1.8 := by
    rw [hd]
    intro d hdm
    rcases List.mem_cons.mp hdm with heq | htl
    · rw [heq]; norm_num
    · rcases hstep : laserStep ⟨0, 10, 0⟩ 0 laserW with ⟨ol, c, e⟩
      rw [hstep] at htl
      rcases ol with _ | l2
      · simp at htl
      · simp [runDists] at htl
  have hband : ∃ d ∈ runDists laserW [(⟨0, 10, 0⟩, 0)], 1.8 < d ∧ d < 4 := by
    rw [hd]
    exact ⟨3, List.mem_cons_self _ _, by norm_num, by norm_num⟩
  exact ⟨rfl, hno, hband,
    evade_counted_exactly_once [(⟨0, 10, 0⟩, 0)] laserW 100 0 rfl hno hband⟩

/-- C10: a projectile first credited as a near miss is not removed; on a
later frame inside the hit radius it deducts `LASER_DAMAGE` from the shields
(floored at 0) and is removed as a collision, so one projectile contributes
both one evade credit and one collision over its lifetime. -/
theorem counted_laser_still_collides (l : Laser) (sh : ℝ) (f1 f2 : Rv3 × ℝ)
    (hc : l.counted = false)
    (hb1 : 1.8 < dist3 (moveLaser l f1.2).pos f1.1)
    (hb2 : dist3 (moveLaser l f1.2).pos f1.1 < 4)
    (hexp : ¬ ((LASER_MAX_DISTANCE : ℝ) < (moveLaser l f1.2).distance ∨
      (moveLaser l f1.2).pos.y < 0))
    (hhit : dist3 (moveLaser { moveLaser l f1.2 with counted := true } f2.2).pos f2.1 < 1.8) :
    runLaser l sh 0 [f1, f2] = ⟨max 0 (sh - (LASER_DAMAGE : ℝ)), 1⟩ := by
  have hcm : (moveLaser l f1.2).counted = false := by
    rw [moveLaser_counted]; exact hc
  have hstep1 : laserStep f1.1 f1.2 l =
      ⟨some { moveLaser l f1.2 with counted := true }, false, true⟩ := by
    unfold laserStep
    rw [if_neg (by linarith), if_pos ⟨hb2, hb1, hcm⟩, if_neg hexp]
  have hstep2 : laserStep f2.1 f2.2 { moveLaser l f1.2 with counted := true } =
      ⟨none, true, false⟩ := by
    unfold laserStep
    rw [if_pos hhit]
  simp only [runLaser, hstep1, hstep2]
  norm_num

/-- Witness for C10: the band laser at distance 3 on frame one, then the
craft at distance 1 on frame two; shields drop from 100 to 82 and the evade
counter reads 1. -/
theorem counted_laser_still_collides_w :
    laserW.counted = false ∧
      1.8 < dist3 (moveLaser laserW 0).pos (⟨0, 10, 0⟩ : Rv3) ∧
      dist3 (moveLaser laserW 0).pos (⟨0, 10, 0⟩ : Rv3) < 4 ∧
      ¬ ((LASER_MAX_DISTANCE : ℝ) < (moveLaser laserW 0).distance ∨
        (moveLaser laserW 0).pos.y < 0) ∧
      dist3 (moveLaser { moveLaser laserW 0 with counted := true } 0).pos
        (⟨0, 10, 2⟩ : Rv3) < 1.8 ∧
      runLaser laserW 100 0 [((⟨0, 10, 0⟩ : Rv3), 0), ((⟨0, 10, 2⟩ : Rv3), 0)] =
        ⟨max 0 (100 - (LASER_DAMAGE : ℝ)), 1⟩ := by
  have h1 : dist3 (moveLaser laserW 0).pos (⟨0, 10, 0⟩ : Rv3) = 3 := by
    rw [moveLaser_laserW_zero]; exact dist_laserW_band
  have hmv : moveLaser { moveLaser laserW 0 with counted := true } 0 =
      { laserW with counted := true } := by
    rw [moveLaser_laserW_zero]
    simp [moveLaser, laserW, Rv3.add, Rv3.smul]
  have h2 : dist3 (moveLaser { moveLaser laserW 0 with counted := true } 0).pos
      (⟨0, 10, 2⟩ : Rv3) < 1.8 := by
    rw [hmv]
    have : ({ laserW with counted := true } : Laser).pos = laserW.pos := rfl
    rw [this, dist_laserW_hit]
    norm_num
  have hexp : ¬ ((LASER_MAX_DISTANCE : ℝ) < (moveLaser laserW 0).distance ∨
      (moveLaser laserW 0).pos.y < 0) := by
    rw [moveLaser_laserW_zero]
    unfold laserW LASER_MAX_DISTANCE
    norm_num
  refine ⟨rfl, by rw [h1]; norm_num, by rw [h1]; norm_num, hexp, h2, ?_⟩
  exact counted_laser_still_collides laserW 100 (⟨0, 10, 0⟩, 0) (⟨0, 10, 2⟩, 0) rfl
    (by rw [h1]; norm_num) (by rw [h1]; norm_num) hexp h2

end

/-! ## Aliens and session restart (GameEngine.createAliens and GameEngine.restart) -/

/-- The gameplay state of one alien (`alien.userData` plus visibility). -/
structure AlienState where
  alive : Bool
  visible : Bool
  baseY : ℚ
  lastShot : ℚ
  shotInterval : ℚ

/-- The shot interval drawn at creation (createAliens, lines 390-391):
`ALIEN_FIRE_RATE_MIN + u * (ALIEN_FIRE_RATE_MAX - ALIEN_FIRE_RATE_MIN)` for a
uniform draw `u` in `[0, 1)`. -/
def rollShotInterval (u : ℚ) : ℚ :=
  ALIEN_FIRE_RATE_MIN + u * (ALIEN_FIRE_RATE_MAX - ALIEN_FIRE_RATE_MIN)

/-- The initial shot timestamp (`Math.random() * 2000`). -/
def rollLastShot (u : ℚ) : ℚ := u * 2000

/-- One alien as created by `createAliens`, for draws `uShot`, `uInterval`. -/
def createAlien (baseY uShot uInterval : ℚ) : AlienState :=
  ⟨true, true, baseY, rollLastShot uShot, rollShotInterval uInterval⟩

/-- The alien reset loop in `restart` (lines 515-519): revive, make visible,
and re-roll `lastShot` with a fresh draw — indexed from `n`. -/
def resetAliens (u : ℕ → ℚ) : ℕ → List AlienState → List AlienState
  | _, [] => []
  | n, a :: rest =>
    { a with alive := true, visible := true, lastShot := rollLastShot (u n) } ::
      resetAliens u (n + 1) rest

/-- The engine state touched by `restart`. -/
structure EngineState where
  shields : ℚ
  boost : ℚ
  survivalTime : ℚ
  evadeCount : ℕ
  uapPos : V3
  uapVel : V3
  aliens : List AlienState
  lasers : List Laser
  pidX : PIDState
  pidY : PIDState
  pidZ : PIDState
  gameStarted : Bool
  gamePaused : Bool
  gameOver : Bool

/-- `GameEngine.restart()` (lines 506-535), with the per-alien random draws
supplied as `u`. -/
def restart (s : EngineState) (u : ℕ → ℚ) : EngineState :=
  { s with
    shields := SHIELD_MAX
    boost := 100
    survivalTime := 0
    evadeCount := 0
    uapPos := ⟨0, 10, 0⟩
    uapVel := ⟨0, 0, 0⟩
    aliens := resetAliens u 0 s.aliens
    lasers := []
    pidX := s.pidX.reset
    pidY := s.pidY.reset
    pidZ := s.pidZ.reset
    gameStarted := true
    gamePaused := false
    gameOver := false }

lemma resetAliens_alive (u : ℕ → ℚ) (al : List AlienState) :
    ∀ n, (resetAliens u n al).map AlienState.alive = al.map (fun _ => true) := by
  induction al with
  | nil => intro n; rfl
  | cons a rest ih =>
    intro n
    simp only [resetAliens, List.map_cons, ih (n + 1)]

lemma resetAliens_shotInterval (u : ℕ → ℚ) (al : List AlienState) :
    ∀ n, (resetAliens u n al).map AlienState.shotInterval =
      al.map AlienState.shotInterval := by
  induction al with
  | nil => intro n; rfl
  | cons a rest ih =>
    intro n
    simp only [resetAliens, List.map_cons, ih (n + 1)]

lemma resetAliens_lastShot (u : ℕ → ℚ) (al : List AlienState) :
    ∀ n, (resetAliens u n al).map AlienState.lastShot =
      (List.range' n al.length).map (fun j => rollLastShot (u j)) := by
  induction al with
  | nil => intro n; rfl
  | cons a rest ih =>
    intro n
    simp only [resetAliens, List.map_cons, List.length_cons, List.range'_succ,
      ih (n + 1)]

/-- The concrete dirty pre-restart state used in the counterexample: one
alien with shot interval 2600, damaged shields, a nonzero evade count. -/
def alienC : AlienState := ⟨false, false, 4, 100, 2600⟩

def stateC : EngineState :=
  ⟨37, 50, 123, 7, ⟨1, 2, 3⟩, ⟨4, 5, 6⟩, [alienC], [], pidKd, pidKd, pidKd,
    true, false, true⟩

/-- C8 counterexample: restarting `stateC` with the fresh uniform draw `1`
leaves the alien's shot interval at its old value 2600, while a re-roll from
the configured fire-rate range with that same draw would yield 4500 — the
shot interval is not re-rolled on restart. -/
theorem restart_keeps_old_shot_interval :
    (restart stateC (fun _ => 1)).aliens.map AlienState.shotInterval = [2600] ∧
      rollShotInterval 1 = 4500 ∧ (2600 : ℚ) ≠ 4500 := by
  refine ⟨rfl, ?_, by norm_num⟩
  norm_num [rollShotInterval, ALIEN_FIRE_RATE_MIN, ALIEN_FIRE_RATE_MAX]

/-- C8 amended: after `restart()`, regardless of the prior event history:
shields equal `SHIELD_MAX`, the evade count and survival time are 0, no live
projectiles remain, all three PID controllers are reset, and every alien is
revived with a freshly rolled `lastShot` cooldown timestamp — but each
alien's `shotInterval` keeps the value drawn at creation; it is not
re-rolled. -/
theorem restart_resets_session (s : EngineState) (u : ℕ → ℚ) :
    (restart s u).shields = SHIELD_MAX ∧
      (restart s u).evadeCount = 0 ∧
      (restart s u).survivalTime = 0 ∧
      (restart s u).lasers = [] ∧
      (restart s u).pidX = s.pidX.reset ∧
      (restart s u).pidY = s.pidY.reset ∧
      (restart s u).pidZ = s.pidZ.reset ∧
      (restart s u).aliens.map AlienState.alive = s.aliens.map (fun _ => true) ∧
      (restart s u).aliens.map AlienState.lastShot =
        (List.range' 0 s.aliens.length).map (fun j => rollLastShot (u j)) ∧
      (restart s u).aliens.map AlienState.shotInterval =
        s.aliens.map AlienState.shotInterval := by
  exact ⟨rfl, rfl, rfl, rfl, rfl, rfl, rfl, resetAliens_alive u s.aliens 0,
    resetAliens_lastShot u s.aliens 0, resetAliens_shotInterval u s.aliens 0⟩

end UAP51
